import Mathlib

/-!
Verification of the rover command session controller (`src/app.js`).

The single source file defines a `RoverController` class whose state and
methods are embedded below as a Lean structure and pure transition
functions.  External effects (the BLE transport write, DOM updates,
logging) are modelled explicitly: successful transport writes are appended
to `sent`, every attempted transport write to `attempts`, and the outcome
of the write (supplied by the environment) is a Boolean parameter.
Timestamps (`Date.now()`) are integers supplied by the environment.
-/

namespace Rover

/-- Outcome reported by `sendCommand`: the early return when not connected
(`console.warn`), a successful characteristic write, or a caught write
error (`console.error` in the catch block). -/
inductive SendOutcome
  | notConnected
  | sent
  | writeFailed
  deriving DecidableEq, Repr

/-- The mutable fields of the `RoverController` class that the claims are
about.  `hasDevice`/`hasCharacteristic` model `this.device !== null` /
`this.characteristic !== null`; `gattConnected` models
`this.device.gatt.connected`.  `sent` is the list of wire strings whose
characteristic write succeeded, `attempts` the list of all wire strings
passed to `characteristic.writeValue` (in order). -/
structure RoverState where
  isConnected : Bool
  hasDevice : Bool
  hasCharacteristic : Bool
  gattConnected : Bool
  currentSpeed : Nat
  currentDirection : String
  commandCount : Nat
  connectionStartTime : Option Int
  lastCommand : String
  lastCommandTime : Int
  sent : List String
  attempts : List String
  deriving DecidableEq, Repr

/-- Constructor state of `RoverController` (lines 11-29 of `app.js`). -/
def initialState : RoverState :=
  { isConnected := false
    hasDevice := false
    hasCharacteristic := false
    gattConnected := false
    currentSpeed := 50
    currentDirection := "STOP"
    commandCount := 0
    connectionStartTime := none
    lastCommand := ""
    lastCommandTime := 0
    sent := []
    attempts := [] }

/-- `this.commandDelay = 100` — the throttle minimum interval in ms; set in
the constructor and never mutated. -/
def commandDelay : Int := 100

/-- `updateDirection`: the `dirMap` lookup with `dirMap[cmd] || dirMap['S']`
fallback; returns the direction label stored in `this.currentDirection`. -/
def directionLabel (cmd : String) : String :=
  if cmd = "F" then "Forward"
  else if cmd = "B" then "Backward"
  else if cmd = "L" then "Left"
  else if cmd = "R" then "Right"
  else "Stopped"

/-- `sendCommand(cmd)`: early-returns when `!this.isConnected ||
!this.characteristic`; otherwise attempts the characteristic write.  On
success it increments `commandCount` and updates the direction display; a
write error is caught, leaving every field unchanged.  `writeOk` is the
environment's verdict on the transport write. -/
def sendCommand (st : RoverState) (cmd : String) (writeOk : Bool) :
    RoverState × SendOutcome :=
  if !st.isConnected || !st.hasCharacteristic then
    (st, .notConnected)
  else if writeOk then
    ({ st with
        sent := st.sent ++ [cmd]
        attempts := st.attempts ++ [cmd]
        commandCount := st.commandCount + 1
        currentDirection := directionLabel cmd }, .sent)
  else
    ({ st with attempts := st.attempts ++ [cmd] }, .writeFailed)

/-- The throttle acceptance test of `sendCommandThrottled` (line 193):
`cmd !== this.lastCommand || (now - this.lastCommandTime) > this.commandDelay`. -/
def shouldSend (st : RoverState) (cmd : String) (now : Int) : Bool :=
  cmd ≠ st.lastCommand || (now - st.lastCommandTime) > commandDelay

/-- `sendCommandThrottled(cmd)` (lines 191-198): on acceptance it calls
`sendCommand` and records `lastCommand`/`lastCommandTime`; on rejection it
does nothing. -/
def sendCommandThrottled (st : RoverState) (cmd : String) (now : Int)
    (writeOk : Bool) : RoverState :=
  if shouldSend st cmd now then
    { (sendCommand st cmd writeOk).1 with
        lastCommand := cmd
        lastCommandTime := now }
  else st

/-- The direction selection of `handleJoystickMove` (lines 168-183), as a
function of the pre-clamp distance and of the angle `atan2(newY, newX) *
180/π` (the clamped vector has the same angle as the input, so the angle
argument is that of the raw vector).  The angle is taken as an exact
rational in degrees, in atan2's range `(-180, 180]`. -/
def joystickCommand (distance angle : ℚ) : String :=
  if distance < 30 then "S"
  else if -45 ≤ angle ∧ angle < 45 then "R"
  else if 45 ≤ angle ∧ angle < 135 then "B"
  else if -135 ≤ angle ∧ angle < -45 then "F"
  else "L"

/-- The command-dispatch tail of `handleJoystickMove`: every branch feeds
its command through `sendCommandThrottled`. -/
def handleJoystickMove (st : RoverState) (distance angle : ℚ) (now : Int)
    (writeOk : Bool) : RoverState :=
  sendCommandThrottled st (joystickCommand distance angle) now writeOk

/-- `resetJoystick` (lines 186-189): recenters the knob and sends `'S'`
unconditionally through the unthrottled `sendCommand`. -/
def resetJoystick (st : RoverState) (writeOk : Bool) : RoverState :=
  (sendCommand st "S" writeOk).1

/-- `emergencyStop` (lines 290-295): sends `'S'` through the unthrottled
`sendCommand` (plus haptics, which have no modelled state). -/
def emergencyStop (st : RoverState) (writeOk : Bool) : RoverState :=
  (sendCommand st "S" writeOk).1

/-- The arrow-button listeners (lines 60-73): each press calls
`sendCommand(btn.dataset.cmd)` directly. -/
def onButtonCommand (st : RoverState) (cmd : String) (writeOk : Bool) :
    RoverState :=
  (sendCommand st cmd writeOk).1

/-- `Math.round((percent / 100) * 255)` for an integer slider percent:
round-half-up of the exact rational `percent * 255 / 100`. -/
def speedByte (percent : Nat) : Nat :=
  (2 * (percent * 255) + 100) / 200

/-- The wire string `` `SPEED:${speed}` `` built by the slider listener. -/
def speedWire (percent : Nat) : String :=
  "SPEED:" ++ Nat.repr (speedByte percent)

/-- The speed-slider `input` listener (lines 76-84): stores the percent,
converts it to a byte with `Math.round`, and calls `sendCommand` directly
with the `SPEED:<byte>` string. -/
def onSpeedChange (st : RoverState) (percent : Nat) (writeOk : Bool) :
    RoverState :=
  (sendCommand { st with currentSpeed := percent } (speedWire percent)
    writeOk).1

/-- The tail of a successful `connect()` (lines 206-244): device,
characteristic and GATT link acquired, then `isConnected = true` and
`connectionStartTime = Date.now()`.  `commandCount` is not written. -/
def connectSuccess (st : RoverState) (now : Int) : RoverState :=
  { st with
      hasDevice := true
      hasCharacteristic := true
      gattConnected := true
      isConnected := true
      connectionStartTime := some now }

/-- `onDisconnected` (lines 328-348): clears the connection fields, resets
the direction display via `updateDirection('S')` and zeroes
`commandCount`.  `connectionStartTime` is not written. -/
def onDisconnected (st : RoverState) : RoverState :=
  { st with
      isConnected := false
      hasCharacteristic := false
      hasDevice := false
      currentDirection := directionLabel "S"
      commandCount := 0 }

/-- `disconnect()` (lines 255-261): when a device with a live GATT link is
held, send `'S'` (best effort, via `sendCommand`, whose catch swallows a
failure) and drop the GATT link; in every case run `onDisconnected`. -/
def disconnect (st : RoverState) (writeOk : Bool) : RoverState :=
  if st.hasDevice && st.gattConnected then
    onDisconnected
      { (sendCommand st "S" writeOk).1 with gattConnected := false }
  else
    onDisconnected st

/-- The `gattserverdisconnected` listener (lines 237-240): the transport
reports the link lost (so `gatt.connected` is false) and the handler calls
`this.onDisconnected()` — nothing else. -/
def unsolicitedDisconnect (st : RoverState) : RoverState :=
  onDisconnected { st with gattConnected := false }

/-- States reachable from the constructor state through the modelled
event handlers. -/
inductive Reachable : RoverState → Prop
  | init : Reachable initialState
  | connect {st} (now : Int) : Reachable st → Reachable (connectSuccess st now)
  | disc {st} (writeOk : Bool) : Reachable st → Reachable (disconnect st writeOk)
  | loss {st} : Reachable st → Reachable (unsolicitedDisconnect st)
  | send {st} (cmd : String) (writeOk : Bool) : Reachable st →
      Reachable (sendCommand st cmd writeOk).1
  | throttled {st} (cmd : String) (now : Int) (writeOk : Bool) : Reachable st →
      Reachable (sendCommandThrottled st cmd now writeOk)
  | joy {st} (distance angle : ℚ) (now : Int) (writeOk : Bool) : Reachable st →
      Reachable (handleJoystickMove st distance angle now writeOk)
  | reset {st} (writeOk : Bool) : Reachable st →
      Reachable (resetJoystick st writeOk)
  | estop {st} (writeOk : Bool) : Reachable st →
      Reachable (emergencyStop st writeOk)
  | button {st} (cmd : String) (writeOk : Bool) : Reachable st →
      Reachable (onButtonCommand st cmd writeOk)
  | speed {st} (percent : Nat) (writeOk : Bool) : Reachable st →
      Reachable (onSpeedChange st percent writeOk)

/-- A convenient reachable `Active` state: fresh connect at time 0. -/
def activeState : RoverState := connectSuccess initialState 0

/-- The magnitude clamp of `handleJoystickMove` (lines 149-162), over the
reals: with `distance = sqrt(dx·dx + dy·dy)`, when `distance > maxRadius`
the knob vector becomes `(cos(atan2(dy,dx))·maxRadius,
sin(atan2(dy,dx))·maxRadius)`, otherwise the raw `(dx, dy)` passes
through.  `atan2(dy, dx)` is `Complex.arg ⟨dx, dy⟩`. -/
noncomputable def clampVector (dx dy maxRadius : ℝ) : ℝ × ℝ :=
  if Real.sqrt (dx * dx + dy * dy) > maxRadius then
    (Real.cos (Complex.arg ⟨dx, dy⟩) * maxRadius,
      Real.sin (Complex.arg ⟨dx, dy⟩) * maxRadius)
  else (dx, dy)

/-! ### Helper lemmas -/

/-- `sendCommand` never writes the throttle or connection bookkeeping
fields, whatever the guard and write outcome. -/
theorem sendCommand_frame (st : RoverState) (cmd : String) (writeOk : Bool) :
    (sendCommand st cmd writeOk).1.lastCommand = st.lastCommand ∧
    (sendCommand st cmd writeOk).1.lastCommandTime = st.lastCommandTime ∧
    (sendCommand st cmd writeOk).1.isConnected = st.isConnected ∧
    (sendCommand st cmd writeOk).1.hasDevice = st.hasDevice ∧
    (sendCommand st cmd writeOk).1.hasCharacteristic = st.hasCharacteristic ∧
    (sendCommand st cmd writeOk).1.gattConnected = st.gattConnected ∧
    (sendCommand st cmd writeOk).1.connectionStartTime = st.connectionStartTime := by
  unfold sendCommand
  split
  · exact ⟨rfl, rfl, rfl, rfl, rfl, rfl, rfl⟩
  · split
    · exact ⟨rfl, rfl, rfl, rfl, rfl, rfl, rfl⟩
    · exact ⟨rfl, rfl, rfl, rfl, rfl, rfl, rfl⟩

/-! ### Claims -/

/-- C1: `sendCommandThrottled` accepts (transmitting via `sendCommand` and
recording the throttle state) exactly when the candidate differs from
`lastCommand` or more than the 100 ms minimum interval has elapsed since
`lastCommandTime`; a rejected call changes nothing; an identical candidate
within the interval is never accepted, and a differing candidate is always
accepted; after an acceptance, an identical candidate within 100 ms of it
is rejected. -/
theorem throttle_policy (st : RoverState) (cmd : String) (now : Int)
    (writeOk : Bool) :
    (shouldSend st cmd now = true ↔
      cmd ≠ st.lastCommand ∨ now - st.lastCommandTime > 100) ∧
    (shouldSend st cmd now = true →
      sendCommandThrottled st cmd now writeOk =
        { (sendCommand st cmd writeOk).1 with
            lastCommand := cmd
            lastCommandTime := now }) ∧
    (shouldSend st cmd now = false →
      sendCommandThrottled st cmd now writeOk = st) ∧
    (cmd = st.lastCommand → now - st.lastCommandTime ≤ 100 →
      shouldSend st cmd now = false) ∧
    (cmd ≠ st.lastCommand → shouldSend st cmd now = true) ∧
    (shouldSend st cmd now = true →
      ∀ now2 : Int, now2 - now ≤ 100 →
        shouldSend (sendCommandThrottled st cmd now writeOk) cmd now2 = false) := by
  have hiff : shouldSend st cmd now = true ↔
      cmd ≠ st.lastCommand ∨ now - st.lastCommandTime > 100 := by
    simp [shouldSend, commandDelay]
  refine ⟨hiff, ?_, ?_, ?_, ?_, ?_⟩
  · intro h
    simp [sendCommandThrottled, h]
  · intro h
    simp [sendCommandThrottled, h]
  · intro he hle
    simp [shouldSend, commandDelay, he]
    omega
  · intro hne
    exact hiff.mpr (Or.inl hne)
  · intro h now2 hle
    simp only [sendCommandThrottled, h, if_true]
    simp [shouldSend, commandDelay]
    omega

/-- C1 witness: from the constructor state, `'F'` at time 0 is accepted and
committed, and an identical `'F'` 50 ms later is rejected. -/
theorem throttle_policy_witness :
    shouldSend initialState "F" 0 = true ∧
    sendCommandThrottled initialState "F" 0 true =
      { (sendCommand initialState "F" true).1 with
          lastCommand := "F"
          lastCommandTime := 0 } ∧
    shouldSend (sendCommandThrottled initialState "F" 0 true) "F" 50 = false :=
  ⟨by decide, (throttle_policy initialState "F" 0 true).2.1 (by decide),
    (throttle_policy initialState "F" 0 true).2.2.2.2.2 (by decide) 50
      (by decide)⟩

/-- C7: calling `sendCommand` with the session not `Active`
(`isConnected` false or no characteristic) returns the state unchanged and
reports `notConnected` — no bytes written, no field mutated, no exception
(the model is total). -/
theorem send_not_connected (st : RoverState) (cmd : String) (writeOk : Bool)
    (h : st.isConnected = false ∨ st.hasCharacteristic = false) :
    sendCommand st cmd writeOk = (st, SendOutcome.notConnected) := by
  rcases h with h | h <;> simp [sendCommand, h]

/-- C7 witness: sending from the constructor (disconnected) state is an
exact no-op reporting `notConnected`. -/
theorem send_not_connected_witness :
    sendCommand initialState "F" true = (initialState, SendOutcome.notConnected) :=
  send_not_connected initialState "F" true (Or.inl rfl)

/-- C8: a failed transport write during an `Active` session is caught: the
command is dropped (recorded only in `attempts`, never in `sent`), the
outcome is `writeFailed`, and the session stays `Active` with
`commandCount`, direction and the connection fields untouched. -/
theorem send_write_failed (st : RoverState) (cmd : String)
    (h1 : st.isConnected = true) (h2 : st.hasCharacteristic = true) :
    sendCommand st cmd false =
      ({ st with attempts := st.attempts ++ [cmd] }, SendOutcome.writeFailed) ∧
    (sendCommand st cmd false).1.isConnected = true ∧
    (sendCommand st cmd false).1.hasDevice = st.hasDevice ∧
    (sendCommand st cmd false).1.hasCharacteristic = true ∧
    (sendCommand st cmd false).1.gattConnected = st.gattConnected ∧
    (sendCommand st cmd false).1.commandCount = st.commandCount ∧
    (sendCommand st cmd false).1.currentDirection = st.currentDirection ∧
    (sendCommand st cmd false).1.sent = st.sent := by
  simp [sendCommand, h1, h2]

/-- C8 witness: a failed write of `'F'` in the fresh `Active` state leaves
every session field unchanged. -/
theorem send_write_failed_witness :
    sendCommand activeState "F" false =
      ({ activeState with attempts := activeState.attempts ++ ["F"] },
        SendOutcome.writeFailed) :=
  (send_write_failed activeState "F" rfl rfl).1

/-- C10: the throttle state (`lastCommand`, `lastCommandTime`) is written
only by an accepted `sendCommandThrottled`: the unthrottled send paths
(joystick release, emergency stop, arrow buttons, speed slider), a
successful connect, explicit and unsolicited disconnect, and the
`onDisconnected` cleanup all leave it unchanged (so it survives
disconnect/reconnect); and an acceptance commits the throttle state even
when the underlying `sendCommand` is a not-connected no-op. -/
theorem throttle_state_owned (st : RoverState) (cmd : String) (now : Int)
    (writeOk : Bool) (percent : Nat) :
    ((sendCommand st cmd writeOk).1.lastCommand = st.lastCommand ∧
      (sendCommand st cmd writeOk).1.lastCommandTime = st.lastCommandTime) ∧
    ((resetJoystick st writeOk).lastCommand = st.lastCommand ∧
      (resetJoystick st writeOk).lastCommandTime = st.lastCommandTime) ∧
    ((emergencyStop st writeOk).lastCommand = st.lastCommand ∧
      (emergencyStop st writeOk).lastCommandTime = st.lastCommandTime) ∧
    ((onButtonCommand st cmd writeOk).lastCommand = st.lastCommand ∧
      (onButtonCommand st cmd writeOk).lastCommandTime = st.lastCommandTime) ∧
    ((onSpeedChange st percent writeOk).lastCommand = st.lastCommand ∧
      (onSpeedChange st percent writeOk).lastCommandTime = st.lastCommandTime) ∧
    ((connectSuccess st now).lastCommand = st.lastCommand ∧
      (connectSuccess st now).lastCommandTime = st.lastCommandTime) ∧
    ((onDisconnected st).lastCommand = st.lastCommand ∧
      (onDisconnected st).lastCommandTime = st.lastCommandTime) ∧
    ((disconnect st writeOk).lastCommand = st.lastCommand ∧
      (disconnect st writeOk).lastCommandTime = st.lastCommandTime) ∧
    ((unsolicitedDisconnect st).lastCommand = st.lastCommand ∧
      (unsolicitedDisconnect st).lastCommandTime = st.lastCommandTime) ∧
    (shouldSend st cmd now = true → st.isConnected = false →
      (sendCommandThrottled st cmd now writeOk).lastCommand = cmd ∧
      (sendCommandThrottled st cmd now writeOk).lastCommandTime = now ∧
      (sendCommandThrottled st cmd now writeOk).sent = st.sent ∧
      (sendCommandThrottled st cmd now writeOk).attempts = st.attempts) := by
  have hsc := sendCommand_frame st cmd writeOk
  have hs := sendCommand_frame st "S" writeOk
  have hsp := sendCommand_frame { st with currentSpeed := percent }
    (speedWire percent) writeOk
  refine ⟨⟨hsc.1, hsc.2.1⟩, ⟨hs.1, hs.2.1⟩, ⟨hs.1, hs.2.1⟩,
    ⟨hsc.1, hsc.2.1⟩, ⟨hsp.1, hsp.2.1⟩, ⟨rfl, rfl⟩, ⟨rfl, rfl⟩, ?_,
    ⟨rfl, rfl⟩, ?_⟩
  · unfold disconnect
    split
    · have h2 := sendCommand_frame st "S" writeOk
      exact ⟨h2.1, h2.2.1⟩
    · exact ⟨rfl, rfl⟩
  · intro hacc hdis
    have hno : sendCommand st cmd writeOk = (st, SendOutcome.notConnected) := by
      simp [sendCommand, hdis]
    simp [sendCommandThrottled, hacc, hno]

/-- C10 witness: accepting `'F'` at time 0 in the constructor
(disconnected) state commits the throttle state while transmitting
nothing; the unthrottled stop path leaves the throttle state alone. -/
theorem throttle_state_owned_witness :
    (sendCommandThrottled initialState "F" 0 true).lastCommand = "F" ∧
    (sendCommandThrottled initialState "F" 0 true).sent = [] ∧
    (resetJoystick initialState true).lastCommand = "" :=
  ⟨((throttle_state_owned initialState "F" 0 true 0).2.2.2.2.2.2.2.2.2
      (by decide) rfl).1,
    ((throttle_state_owned initialState "F" 0 true 0).2.2.2.2.2.2.2.2.2
      (by decide) rfl).2.2.1,
    (throttle_state_owned initialState "F" 0 true 0).2.1.1⟩

/-- C3: with the angle in atan2's range `(-180, 180]`, `joystickCommand`
realises exactly the four half-open 90° sectors — `[-45,45) → R`,
`[45,135) → B`, `[-135,-45) → F`, the remainder `[135,180] ∪ (-180,-135)
→ L` — whenever the distance reaches the 30-unit deadzone, and returns
`S` exactly when the distance is below it; the five characterisations are
mutually exclusive and exhaustive, so the sectors partition the circle. -/
theorem joystick_sectors (d a : ℚ) (hlo : -180 < a) (hhi : a ≤ 180) :
    (joystickCommand d a = "S" ↔ d < 30) ∧
    (joystickCommand d a = "R" ↔ 30 ≤ d ∧ -45 ≤ a ∧ a < 45) ∧
    (joystickCommand d a = "B" ↔ 30 ≤ d ∧ 45 ≤ a ∧ a < 135) ∧
    (joystickCommand d a = "F" ↔ 30 ≤ d ∧ -135 ≤ a ∧ a < -45) ∧
    (joystickCommand d a = "L" ↔ 30 ≤ d ∧ (135 ≤ a ∨ a < -135)) := by
  unfold joystickCommand
  split_ifs with hd hR hB hF
  · refine ⟨⟨fun _ => hd, fun _ => rfl⟩, ?_, ?_, ?_, ?_⟩ <;>
      exact ⟨fun h => absurd h (by decide),
        fun h => absurd hd (not_lt.mpr h.1)⟩
  · refine ⟨⟨fun h => absurd h (by decide), fun h => absurd h hd⟩,
      ⟨fun _ => ⟨le_of_not_lt hd, hR⟩, fun _ => rfl⟩, ?_, ?_, ?_⟩
    · exact ⟨fun h => absurd h (by decide),
        fun h => absurd h.2.1 (not_le.mpr hR.2)⟩
    · exact ⟨fun h => absurd h (by decide),
        fun h => absurd h.2.2 (not_lt.mpr hR.1)⟩
    · refine ⟨fun h => absurd h (by decide), fun h => ?_⟩
      rcases h.2 with h135 | hm135
      · exact absurd h135 (not_le.mpr (lt_of_lt_of_le hR.2 (by norm_num)))
      · exact absurd hm135 (not_lt.mpr (le_trans (by norm_num) hR.1))
  · refine ⟨⟨fun h => absurd h (by decide), fun h => absurd h hd⟩,
      ⟨fun h => absurd h (by decide), fun h => absurd h.2 hR⟩,
      ⟨fun _ => ⟨le_of_not_lt hd, hB⟩, fun _ => rfl⟩, ?_, ?_⟩
    · exact ⟨fun h => absurd h (by decide),
        fun h => absurd h.2.2 (not_lt.mpr (le_trans (by norm_num) hB.1))⟩
    · refine ⟨fun h => absurd h (by decide), fun h => ?_⟩
      rcases h.2 with h135 | hm135
      · exact absurd h135 (not_le.mpr hB.2)
      · exact absurd hm135 (not_lt.mpr (le_trans (by norm_num) hB.1))
  · refine ⟨⟨fun h => absurd h (by decide), fun h => absurd h hd⟩,
      ⟨fun h => absurd h (by decide), fun h => absurd h.2 hR⟩,
      ⟨fun h => absurd h (by decide), fun h => absurd h.2 hB⟩,
      ⟨fun _ => ⟨le_of_not_lt hd, hF⟩, fun _ => rfl⟩, ?_⟩
    refine ⟨fun h => absurd h (by decide), fun h => ?_⟩
    rcases h.2 with h135 | hm135
    · exact absurd h135 (not_le.mpr (lt_of_lt_of_le hF.2 (by norm_num)))
    · exact absurd hm135 (not_lt.mpr hF.1)
  · have hR47 : a < -45 ∨ 45 ≤ a := by
      by_contra hc
      push_neg at hc
      exact hR ⟨hc.1, hc.2⟩
    have hB47 : a < 45 ∨ 135 ≤ a := by
      by_contra hc
      push_neg at hc
      exact hB ⟨hc.1, hc.2⟩
    have hF47 : a < -135 ∨ -45 ≤ a := by
      by_contra hc
      push_neg at hc
      exact hF ⟨hc.1, hc.2⟩
    have hsec : 135 ≤ a ∨ a < -135 := by
      rcases hR47 with hr | hr
      · rcases hF47 with hf | hf
        · exact Or.inr hf
        · exact absurd hr (not_lt.mpr hf)
      · rcases hB47 with hb | hb
        · exact absurd hb (not_lt.mpr hr)
        · exact Or.inl hb
    refine ⟨⟨fun h => absurd h (by decide), fun h => absurd h hd⟩,
      ⟨fun h => absurd h (by decide), fun h => absurd h.2 hR⟩,
      ⟨fun h => absurd h (by decide), fun h => absurd h.2 hB⟩,
      ⟨fun h => absurd h (by decide), fun h => absurd h.2 hF⟩,
      ⟨fun _ => ⟨le_of_not_lt hd, hsec⟩, fun _ => rfl⟩⟩

/-- C3 witness: at the deadzone boundary distance 30 and the boundary
angle 45, the code yields Backward, not Right; below the deadzone it
yields Stop. -/
theorem joystick_sectors_witness :
    joystickCommand 30 45 = "B" ∧ joystickCommand 29 45 = "S" :=
  ⟨(joystick_sectors 30 45 (by norm_num) (by norm_num)).2.2.1.mpr
      ⟨by norm_num, by norm_num, by norm_num⟩,
    (joystick_sectors 29 45 (by norm_num) (by norm_num)).1.mpr (by norm_num)⟩

/-- Helper: the floor of a quotient of naturals in `ℚ` is natural
division. -/
theorem floor_natCast_div (m n : ℕ) :
    ⌊((m : ℚ) / (n : ℚ))⌋ = (↑(m / n) : ℤ) := by
  rw [show ((m : ℚ)) = (((m : ℤ)) : ℚ) by push_cast; ring,
    Rat.floor_intCast_div_natCast]
  exact (Int.ofNat_div m n).symm

/-- Helper: `speedByte` is exactly round-half-up of the rational
`percent / 100 * 255`, i.e. `Math.round` of the slider conversion. -/
theorem speed_round (p : ℕ) :
    (speedByte p : ℤ) = round ((p : ℚ) / 100 * 255) := by
  rw [round_eq]
  rw [show (p : ℚ) / 100 * 255 + 1 / 2 =
      ((2 * (p * 255) + 100 : ℕ) : ℚ) / ((200 : ℕ) : ℚ) by push_cast; ring]
  rw [floor_natCast_div]
  simp [speedByte]

/-- C6: the slider conversion is `round(percent / 100 * 255)` — round to
nearest (half up), never truncation — and the wire string is exactly
`SPEED:` followed by the decimal digits of the byte, with digits only
(no sign) and no leading zeros; in particular percent 50 yields byte 128
and the wire bytes `SPEED:128`, which is what an active session
transmits. -/
theorem speed_conversion :
    (∀ p : ℕ, (speedByte p : ℤ) = round ((p : ℚ) / 100 * 255)) ∧
    (∀ p : ℕ, speedWire p = "SPEED:" ++ Nat.repr (speedByte p)) ∧
    (∀ p : Fin 101,
      (Nat.repr (speedByte p.val)).data.all Char.isDigit = true ∧
      ((Nat.repr (speedByte p.val)).data.head? ≠ some '0' ∨
        speedByte p.val = 0)) ∧
    speedByte 50 = 128 ∧
    speedWire 50 = "SPEED:128" ∧
    (onSpeedChange activeState 50 true).sent = ["SPEED:128"] := by
  exact ⟨speed_round, fun p => rfl, by decide, rfl, by decide, by decide⟩

/-- Helper: `sendCommand` keeps `commandCount` at zero whenever the state
is (and stays) disconnected. -/
theorem send_disconnected_count (st : RoverState) (cmd : String)
    (writeOk : Bool) (ih : st.isConnected = false → st.commandCount = 0) :
    (sendCommand st cmd writeOk).1.isConnected = false →
    (sendCommand st cmd writeOk).1.commandCount = 0 := by
  intro hc
  have hf := sendCommand_frame st cmd writeOk
  rw [hf.2.2.1] at hc
  have hno : (sendCommand st cmd writeOk).1 = st := by
    simp [sendCommand, hc]
  rw [hno]
  exact ih hc

/-- Helper: `sendCommandThrottled` keeps `commandCount` at zero whenever
the state is (and stays) disconnected. -/
theorem throttled_disconnected_count (st : RoverState) (cmd : String)
    (now : Int) (writeOk : Bool)
    (ih : st.isConnected = false → st.commandCount = 0) :
    (sendCommandThrottled st cmd now writeOk).isConnected = false →
    (sendCommandThrottled st cmd now writeOk).commandCount = 0 := by
  intro hc
  unfold sendCommandThrottled at hc ⊢
  by_cases hss : shouldSend st cmd now = true
  · rw [if_pos hss] at hc ⊢
    have hc2 : (sendCommand st cmd writeOk).1.isConnected = false := hc
    show (sendCommand st cmd writeOk).1.commandCount = 0
    exact send_disconnected_count st cmd writeOk ih hc2
  · rw [if_neg hss] at hc ⊢
    exact ih hc

/-- Helper invariant: in every reachable disconnected state the command
counter is zero (it is zeroed by every entry into `Disconnected` and only
incremented while connected). -/
theorem reachable_disconnected_count {st : RoverState} (h : Reachable st) :
    st.isConnected = false → st.commandCount = 0 := by
  induction h with
  | init => intro _; rfl
  | connect now _ _ => intro hc; simp [connectSuccess] at hc
  | disc writeOk _ _ =>
    intro _
    unfold disconnect
    split <;> rfl
  | loss _ _ => intro _; rfl
  | send cmd writeOk _ ih => exact send_disconnected_count _ cmd writeOk ih
  | throttled cmd now writeOk _ ih =>
    exact throttled_disconnected_count _ cmd now writeOk ih
  | joy d a now writeOk _ ih =>
    exact throttled_disconnected_count _ (joystickCommand d a) now writeOk ih
  | reset writeOk _ ih => exact send_disconnected_count _ "S" writeOk ih
  | estop writeOk _ ih => exact send_disconnected_count _ "S" writeOk ih
  | button cmd writeOk _ ih => exact send_disconnected_count _ cmd writeOk ih
  | speed percent writeOk _ ih =>
    exact send_disconnected_count _ (speedWire percent) writeOk
      (fun hcc => ih hcc)

/-- C2 counterexample: from a fresh `Active` session, two speed-slider
events with the same percent 50 in immediate succession are BOTH
transmitted (the wire message appears twice in `sent`), and the throttle
state is never even consulted or updated — the slider path calls
`sendCommand` directly, bypassing `sendCommandThrottled`. -/
theorem speed_not_throttled_cex :
    (onSpeedChange (onSpeedChange activeState 50 true) 50 true).sent =
      ["SPEED:128", "SPEED:128"] ∧
    (onSpeedChange (onSpeedChange activeState 50 true) 50 true).lastCommand =
      activeState.lastCommand ∧
    (onSpeedChange (onSpeedChange activeState 50 true) 50 true).lastCommandTime =
      activeState.lastCommandTime := by
  decide

/-- C2 amended: only the directional joystick path feeds its command
through `sendCommandThrottled`; arrow-button presses and speed-slider
changes call the unthrottled `sendCommand` directly, leaving the throttle
state untouched, so two SpeedSet commands with the same value in
immediate succession during an `Active` session are both transmitted. -/
theorem input_paths_throttling (st : RoverState) (d a : ℚ) (now : Int)
    (writeOk : Bool) (cmd : String) (percent : Nat) :
    handleJoystickMove st d a now writeOk =
      sendCommandThrottled st (joystickCommand d a) now writeOk ∧
    onButtonCommand st cmd writeOk = (sendCommand st cmd writeOk).1 ∧
    onSpeedChange st percent writeOk =
      (sendCommand { st with currentSpeed := percent } (speedWire percent)
        writeOk).1 ∧
    ((onSpeedChange st percent writeOk).lastCommand = st.lastCommand ∧
      (onSpeedChange st percent writeOk).lastCommandTime =
        st.lastCommandTime) ∧
    ((onButtonCommand st cmd writeOk).lastCommand = st.lastCommand ∧
      (onButtonCommand st cmd writeOk).lastCommandTime =
        st.lastCommandTime) ∧
    (st.isConnected = true → st.hasCharacteristic = true →
      (onSpeedChange (onSpeedChange st percent true) percent true).sent =
        st.sent ++ [speedWire percent, speedWire percent]) := by
  refine ⟨rfl, rfl, rfl, ?_, ?_, ?_⟩
  · have h := sendCommand_frame { st with currentSpeed := percent }
      (speedWire percent) writeOk
    exact ⟨h.1, h.2.1⟩
  · have h := sendCommand_frame st cmd writeOk
    exact ⟨h.1, h.2.1⟩
  · intro h1 h2
    simp [onSpeedChange, sendCommand, h1, h2]

/-- C2 amended witness: in the fresh `Active` state, the doubled slider
event at percent 50 transmits the identical wire message twice. -/
theorem input_paths_throttling_witness :
    (onSpeedChange (onSpeedChange activeState 50 true) 50 true).sent =
      activeState.sent ++ [speedWire 50, speedWire 50] :=
  (input_paths_throttling activeState 0 0 0 true "F" 50).2.2.2.2.2 rfl rfl

/-- C4 counterexample: the unsolicited-loss handler performs NO Stop
write at all — a transition from `Active` to `Disconnected` with an empty
`attempts` log, refuting the claim that every such transition performs
exactly one best-effort Stop send. -/
theorem unsolicited_no_stop_cex :
    activeState.isConnected = true ∧
    (unsolicitedDisconnect activeState).isConnected = false ∧
    (unsolicitedDisconnect activeState).attempts = [] := by
  decide

/-- C4 amended: an explicit `disconnect()` from `Active` attempts exactly
one best-effort Stop write before dropping the GATT link, a failure of
that write is swallowed (teardown proceeds, nothing reaches `sent`);
unsolicited link loss performs no Stop attempt; both paths funnel into
the single `onDisconnected` cleanup. -/
theorem disconnect_teardown (st : RoverState) (writeOk : Bool)
    (h1 : st.isConnected = true) (h2 : st.hasCharacteristic = true)
    (h3 : st.hasDevice = true) (h4 : st.gattConnected = true) :
    (disconnect st writeOk).attempts = st.attempts ++ ["S"] ∧
    disconnect st writeOk =
      onDisconnected
        { (sendCommand st "S" writeOk).1 with gattConnected := false } ∧
    unsolicitedDisconnect st =
      onDisconnected { st with gattConnected := false } ∧
    (unsolicitedDisconnect st).attempts = st.attempts ∧
    (disconnect st false).sent = st.sent ∧
    (disconnect st writeOk).isConnected = false ∧
    (disconnect st writeOk).hasDevice = false ∧
    (disconnect st writeOk).hasCharacteristic = false ∧
    (unsolicitedDisconnect st).isConnected = false := by
  have hd : (st.hasDevice && st.gattConnected) = true := by
    rw [h3, h4]; rfl
  refine ⟨?_, ?_, rfl, rfl, ?_, ?_, ?_, ?_, rfl⟩
  · unfold disconnect
    rw [if_pos hd]
    show (sendCommand st "S" writeOk).1.attempts = st.attempts ++ ["S"]
    cases writeOk <;> simp [sendCommand, h1, h2]
  · unfold disconnect
    rw [if_pos hd]
  · unfold disconnect
    rw [if_pos hd]
    show (sendCommand st "S" false).1.sent = st.sent
    simp [sendCommand, h1, h2]
  · unfold disconnect
    rw [if_pos hd]
    rfl
  · unfold disconnect
    rw [if_pos hd]
    rfl
  · unfold disconnect
    rw [if_pos hd]
    rfl

/-- C4 amended witness: from the fresh `Active` state, explicit
disconnect logs exactly one Stop attempt and unsolicited loss logs
none. -/
theorem disconnect_teardown_witness :
    (disconnect activeState true).attempts = [] ++ ["S"] ∧
    (unsolicitedDisconnect activeState).attempts = [] :=
  ⟨(disconnect_teardown activeState true rfl rfl rfl rfl).1,
    (disconnect_teardown activeState true rfl rfl rfl rfl).2.2.2.1⟩

/-- C5 counterexample: after connecting at time 5 and then entering
`Disconnected`, `connectionStartTime` still holds `some 5` — it is never
reset to `none`, refuting the claim that `connectedSince` becomes none on
every transition into `Disconnected`. -/
theorem stats_reset_cex :
    (disconnect (connectSuccess initialState 5) true).connectionStartTime =
      some 5 := by
  decide

/-- C5 amended: every entry into `Disconnected` (cleanup, explicit
disconnect, unsolicited loss) zeroes `commandCount` but leaves
`connectionStartTime` at its previous value; a successful connect records
the connection start time and does not write `commandCount` — which is
nevertheless zero on entry to `Active`, because every reachable
disconnected state has a zero counter. -/
theorem stats_reset (st : RoverState) (now : Int) (writeOk : Bool) :
    (onDisconnected st).commandCount = 0 ∧
    (onDisconnected st).connectionStartTime = st.connectionStartTime ∧
    (disconnect st writeOk).commandCount = 0 ∧
    (disconnect st writeOk).connectionStartTime = st.connectionStartTime ∧
    (unsolicitedDisconnect st).commandCount = 0 ∧
    (unsolicitedDisconnect st).connectionStartTime = st.connectionStartTime ∧
    (connectSuccess st now).connectionStartTime = some now ∧
    (connectSuccess st now).commandCount = st.commandCount ∧
    (Reachable st → st.isConnected = false → st.commandCount = 0) := by
  refine ⟨rfl, rfl, ?_, ?_, rfl, rfl, rfl, rfl,
    fun h => reachable_disconnected_count h⟩
  · unfold disconnect
    split <;> rfl
  · unfold disconnect
    split
    · show ((sendCommand st "S" writeOk).1).connectionStartTime =
        st.connectionStartTime
      exact (sendCommand_frame st "S" writeOk).2.2.2.2.2.2
    · rfl

/-- C5 amended witness: disconnecting the session connected at time 0
zeroes the counter but keeps `connectionStartTime = some 0`; the
constructor state is reachable, disconnected, and has a zero counter. -/
theorem stats_reset_witness :
    (disconnect activeState true).commandCount = 0 ∧
    (disconnect activeState true).connectionStartTime = some 0 ∧
    initialState.commandCount = 0 :=
  ⟨(stats_reset activeState 0 true).2.2.1,
    (stats_reset activeState 0 true).2.2.2.1,
    (stats_reset initialState 0 true).2.2.2.2.2.2.2.2 Reachable.init rfl⟩

/-- C9: when the input vector's magnitude exceeds `maxRadius`, the
clamped vector is the positive rescaling `(maxRadius/d)·(dx, dy)` of the
input — so its magnitude is exactly `maxRadius` and its `atan2` angle is
identical to the input's; when the magnitude does not exceed `maxRadius`
the vector passes through unchanged. -/
theorem clamp_magnitude (dx dy maxRadius : ℝ) (hpos : 0 < maxRadius) :
    (Real.sqrt (dx * dx + dy * dy) > maxRadius →
      clampVector dx dy maxRadius =
        ((maxRadius / Real.sqrt (dx * dx + dy * dy)) * dx,
          (maxRadius / Real.sqrt (dx * dx + dy * dy)) * dy) ∧
      0 < maxRadius / Real.sqrt (dx * dx + dy * dy) ∧
      (clampVector dx dy maxRadius).1 ^ 2 +
        (clampVector dx dy maxRadius).2 ^ 2 = maxRadius ^ 2 ∧
      Complex.arg ⟨(clampVector dx dy maxRadius).1,
          (clampVector dx dy maxRadius).2⟩ = Complex.arg ⟨dx, dy⟩) ∧
    (Real.sqrt (dx * dx + dy * dy) ≤ maxRadius →
      clampVector dx dy maxRadius = (dx, dy)) := by
  constructor
  · intro hgt
    have hd : 0 < Real.sqrt (dx * dx + dy * dy) := lt_trans hpos hgt
    have hz : (⟨dx, dy⟩ : ℂ) ≠ 0 := by
      intro hzero
      rw [Complex.ext_iff] at hzero
      simp only [Complex.zero_re, Complex.zero_im] at hzero
      rw [hzero.1, hzero.2] at hd
      simp at hd
    have habs : Complex.abs ⟨dx, dy⟩ = Real.sqrt (dx * dx + dy * dy) := by
      rw [Complex.abs_apply, Complex.normSq_mk]
    have hcos : Real.cos (Complex.arg ⟨dx, dy⟩) =
        dx / Real.sqrt (dx * dx + dy * dy) := by
      rw [Complex.cos_arg hz, habs]
    have hsin : Real.sin (Complex.arg ⟨dx, dy⟩) =
        dy / Real.sqrt (dx * dx + dy * dy) := by
      rw [Complex.sin_arg, habs]
    have hval : clampVector dx dy maxRadius =
        ((maxRadius / Real.sqrt (dx * dx + dy * dy)) * dx,
          (maxRadius / Real.sqrt (dx * dx + dy * dy)) * dy) := by
      rw [clampVector, if_pos hgt, hcos, hsin]
      simp only [Prod.mk.injEq]
      constructor <;> ring
    have hratio : 0 < maxRadius / Real.sqrt (dx * dx + dy * dy) :=
      div_pos hpos hd
    refine ⟨hval, hratio, ?_, ?_⟩
    · rw [hval]
      have hsq : Real.sqrt (dx * dx + dy * dy) ^ 2 = dx * dx + dy * dy :=
        Real.sq_sqrt (add_nonneg (mul_self_nonneg dx) (mul_self_nonneg dy))
      have hne : Real.sqrt (dx * dx + dy * dy) ≠ 0 := ne_of_gt hd
      field_simp
      nlinarith [hsq]
    · rw [hval]
      have hmk : (⟨(maxRadius / Real.sqrt (dx * dx + dy * dy)) * dx,
          (maxRadius / Real.sqrt (dx * dx + dy * dy)) * dy⟩ : ℂ) =
          ((maxRadius / Real.sqrt (dx * dx + dy * dy) : ℝ) : ℂ) *
            ⟨dx, dy⟩ := by
        rw [Complex.ext_iff]
        simp [Complex.mul_re, Complex.mul_im]
      rw [hmk]
      exact Complex.arg_real_mul _ hratio
  · intro hle
    rw [clampVector, if_neg (not_lt.mpr hle)]

/-- C9 witness: the scenario vector `(100, 0)` with `maxRadius = 80` is
clamped to exactly `(80, 0)`. -/
theorem clamp_magnitude_witness : clampVector 100 0 80 = (80, 0) := by
  have hs : Real.sqrt (100 * 100 + 0 * 0) = 100 := by
    rw [show (100 * 100 + 0 * 0 : ℝ) = 100 ^ 2 by norm_num]
    exact Real.sqrt_sq (by norm_num)
  have h := ((clamp_magnitude 100 0 80 (by norm_num)).1
    (by rw [hs]; norm_num)).1
  rw [hs] at h
  rw [h]
  norm_num

end Rover
